import Mathlib

/-!
Shallow embedding of the dashcam-admin operator console's call signaling
core (source: `src/src/App.tsx` and the two unnamed near-duplicate
variants `src/unnamed/part_000` / `src/unnamed/part_001`).

Two variants are modelled side by side where they differ:
  * the "P1" functions embed `src/unnamed/part_001` (the variant with the
    `parseIceCandidate` codec, the TURN server, and the pre-call
    microphone check);
  * the "app" functions embed `src/src/App.tsx` (the variant with the
    inline candidate-field validation and no codec).

JavaScript asynchrony is modelled by passing the outcome of each
awaited external operation (media capture) as an explicit argument, and
by recording outbound relay emissions and transport-engine commands as
an explicit `Action` list.  `setTimeout` status debounces are modelled
as a pending flag fired by `fireStatusReset`.
-/

namespace Dashcam

/-- Kind of a media track delivered by the transport engine
(`event.track.kind` is `"audio"` or `"video"`). -/
inductive TrackKind where
  | audio
  | video
deriving DecidableEq, Repr

/-- `RTCPeerConnection.connectionState` values. -/
inductive ConnState where
  | fresh
  | connecting
  | connected
  | disconnected
  | failed
  | closed
deriving DecidableEq, Repr

/-- The string the browser reports for each connection state (used in the
template literal `Audio connecting... (state)`). -/
def connStateName : ConnState → String
  | .fresh => "new"
  | .connecting => "connecting"
  | .connected => "connected"
  | .disconnected => "disconnected"
  | .failed => "failed"
  | .closed => "closed"

/-- A session description; only its `type` field is inspected by the code
(`pcRef.current.remoteDescription?.type`). -/
structure SessionDesc where
  descType : String
deriving DecidableEq, Repr

/-- The slice of an `RTCPeerConnection` object the console reads:
identity, connection state and whether a remote description is set. -/
structure PeerConn where
  id : Nat
  connectionState : ConnState
  remoteDescription : Option SessionDesc
deriving DecidableEq, Repr

/-- An inbound media track (`event.track`); `streamId` stands for the
associated `MediaStream` (`event.streams[0]`). -/
structure Track where
  kind : TrackKind
  streamId : Nat
deriving DecidableEq, Repr

/-- `RTCIceCandidateInit`: the structured wire form of an ICE candidate. -/
structure IceCandidateInit where
  candidate : String
  sdpMid : Option String
  sdpMLineIndex : Option Nat
  usernameFragment : Option String
deriving DecidableEq, Repr

/-- The wire payload of a candidate signaling message: either a legacy
SDP-fragment string or an already structured record. -/
inductive RawCandidate where
  | str (s : String)
  | structured (c : IceCandidateInit)
deriving DecidableEq, Repr

/-- A media-capture failure (`getUserMedia` rejection): the code reads
`err.name` and `err.message`. -/
structure CaptureErr where
  name : String
  message : String
deriving DecidableEq, Repr

/-- Observable side effects: relay emissions (`socket.emit`),
transport-engine commands and scheduled timers, in program order. -/
inductive Action where
  | emitStartCall (deviceId : String)
  | emitStartVideoCall (deviceId : String)
  | emitEndCall (toId : String)
  | emitEndVideoCall (toId : String)
  | emitCallEnded (toId : String)
  | emitVideoCallEnded (toId : String)
  | emitSignalOffer (toId : String)
  | getUserMediaAudio
  | closePC (pcId : Nat)
  | stopTracks (streamId : Nat)
  | addTrackToPC (pcId : Nat)
  | createOffer
  | setLocalDescription
  | addIceCandidate (c : IceCandidateInit)
  | scheduleStatusReset
  | playAudio
  | playVideo
deriving DecidableEq, Repr

/-- The component's mutable state: refs (`pcRef`, `localStreamRef`, the
`srcObject` of the audio/video elements) and React state hooks.
`audioRefPresent` / `videoRefPresent` record whether the corresponding
media element is mounted (`audioRef.current !== null`).
`dashcamSocketId` is `sessionStorage.getItem("dashcam-socket-id")`.
`pendingStatusReset` records a scheduled
`setTimeout(() => setCallStatus("Ready to call"), 2000)`. -/
structure AppState where
  pc : Option PeerConn
  localStream : Option Nat
  audioSink : Option Track
  videoSink : Option Track
  audioRefPresent : Bool
  videoRefPresent : Bool
  callStatus : String
  audioLevel : Nat
  isCallActive : Bool
  isVideoCall : Bool
  videoStats : String
  dashcamSocketId : Option String
  pendingStatusReset : Bool
deriving DecidableEq, Repr

/-! ## Candidate Codec (`parseIceCandidate`, `src/unnamed/part_001` 16-38)

The legacy-string branch runs the unanchored JavaScript regex
`/candidate:(\S+) (\d+) (\w+) (\d+) (\S+) (\d+) typ (\w+)(.*)/` via
`String.prototype.match`.  Each repetition class excludes the character
that must follow it, so the backtracking regex is equivalent to
maximal-munch parsing attempted at every start position; `(.*)` stops at
a line terminator. -/

/-- JavaScript `\s` (whitespace) character class. -/
def jsIsSpace (c : Char) : Bool :=
  c = ' ' || c = '\t' || c = '\n' || c = '\r' || c = '\x0b' || c = '\x0c' ||
  c = Char.ofNat 0xa0 || c = Char.ofNat 0x1680 ||
  (0x2000 ≤ c.toNat && c.toNat ≤ 0x200a) ||
  c = Char.ofNat 0x2028 || c = Char.ofNat 0x2029 || c = Char.ofNat 0x202f ||
  c = Char.ofNat 0x205f || c = Char.ofNat 0x3000 || c = Char.ofNat 0xfeff

/-- JavaScript `\d` character class. -/
def jsIsDigit (c : Char) : Bool :=
  '0' ≤ c && c ≤ '9'

/-- JavaScript `\w` character class. -/
def jsIsWord (c : Char) : Bool :=
  ('a' ≤ c && c ≤ 'z') || ('A' ≤ c && c ≤ 'Z') || jsIsDigit c || c = '_'

/-- JavaScript line terminators, which `.` does not match. -/
def jsIsLineTerm (c : Char) : Bool :=
  c = '\n' || c = '\r' || c = Char.ofNat 0x2028 || c = Char.ofNat 0x2029

/-- Maximal run of characters satisfying `p`, plus the remainder. -/
def takeRun (p : Char → Bool) (l : List Char) : List Char × List Char :=
  (l.takeWhile p, l.dropWhile p)

/-- Greedy `X+`: a nonempty maximal run, or failure. -/
def run1 (p : Char → Bool) (l : List Char) : Option (List Char × List Char) :=
  match takeRun p l with
  | ([], _) => none
  | (c :: a, b) => some (c :: a, b)

/-- Match one literal character. -/
def litChar (c : Char) : List Char → Option (List Char)
  | [] => none
  | x :: rest => if x = c then some rest else none

/-- Match a literal character sequence. -/
def lit : List Char → List Char → Option (List Char)
  | [], l => some l
  | c :: cs, l => (litChar c l).bind (lit cs)

/-- The capture groups of the candidate regex. -/
structure LegacyGroups where
  foundation : List Char
  component : List Char
  protocol : List Char
  priority : List Char
  ip : List Char
  port : List Char
  typName : List Char
  rest : List Char
deriving DecidableEq, Repr

/-- One attempt of the candidate regex at the start of `l`. -/
def matchCandidateAt (l : List Char) : Option LegacyGroups := do
  let l ← lit "candidate:".toList l
  let (foundation, l) ← run1 (fun c => !jsIsSpace c) l
  let l ← litChar ' ' l
  let (component, l) ← run1 jsIsDigit l
  let l ← litChar ' ' l
  let (protocol, l) ← run1 jsIsWord l
  let l ← litChar ' ' l
  let (priority, l) ← run1 jsIsDigit l
  let l ← litChar ' ' l
  let (ip, l) ← run1 (fun c => !jsIsSpace c) l
  let l ← litChar ' ' l
  let (port, l) ← run1 jsIsDigit l
  let l ← lit " typ ".toList l
  let (typName, l) ← run1 jsIsWord l
  let (rest, _) := takeRun (fun c => !jsIsLineTerm c) l
  pure { foundation, component, protocol, priority, ip, port, typName, rest }

/-- `String.prototype.match` semantics: try the pattern at every start
position, first success wins. -/
def findCandidateMatch : List Char → Option LegacyGroups
  | [] => none
  | c :: rest =>
    match matchCandidateAt (c :: rest) with
    | some g => some g
    | none => findCandidateMatch rest

/-- Unanchored search for `lit` followed by a nonempty `p`-run
(the sub-regexes `/sdpMid (\S+)/`, `/sdpMLineIndex (\d+)/`,
`/ufrag (\S+)/` applied to the `rest` capture). -/
def findAfterLit (pat : List Char) (p : Char → Bool) : List Char → Option (List Char)
  | [] => none
  | c :: rest =>
    match (lit pat (c :: rest)).bind (run1 p) with
    | some (tok, _) => some tok
    | none => findAfterLit pat p rest

/-- `parseInt` on a digit-run capture. -/
def digitsToNat (l : List Char) : Nat :=
  l.foldl (fun acc c => acc * 10 + (c.toNat - 48)) 0

/-- `parseIceCandidate` (`src/unnamed/part_001` 16-38): a string is parsed
against the fixed grammar (`null` on failure); an already structured
candidate is returned as-is.  `none` models the `null` discard signal. -/
def parseIceCandidate : RawCandidate → Option IceCandidateInit
  | .str s =>
    match findCandidateMatch s.toList with
    | none => none
    | some g =>
      some
        { candidate :=
            ("candidate:".toList ++ g.foundation ++ [' '] ++ g.component ++ [' '] ++
              g.protocol ++ [' '] ++ g.priority ++ [' '] ++ g.ip ++ [' '] ++
              g.port ++ " typ ".toList ++ g.typName ++ g.rest).asString,
          sdpMid :=
            some (((findAfterLit "sdpMid ".toList (fun c => !jsIsSpace c) g.rest).map
              List.asString).getD "0"),
          sdpMLineIndex :=
            some (((findAfterLit "sdpMLineIndex ".toList jsIsDigit g.rest).map
              digitsToNat).getD 0),
          usernameFragment :=
            (findAfterLit "ufrag ".toList (fun c => !jsIsSpace c) g.rest).map
              List.asString }
  | .structured c => some c

/-! ## Call Controller -/

/-- `startAudioCall` (`src/src/App.tsx` 15-20): unconditionally sets the
status, emits `start-call` and flags the session active in audio mode.
There is no check of `isCallActive` inside the function. -/
def startAudioCall (s : AppState) : AppState × List Action :=
  ({ s with callStatus := "Initiating audio call via socket...",
            isCallActive := true, isVideoCall := false },
   [Action.emitStartCall "dashcam-002"])

/-- `startVideoCall` (`src/src/App.tsx` 22-27). -/
def startVideoCall (s : AppState) : AppState × List Action :=
  ({ s with callStatus := "Initiating video call via socket...",
            isCallActive := true, isVideoCall := true },
   [Action.emitStartVideoCall "dashcam-002"])

/-- `startAudioCall` (`src/unnamed/part_001` 40-59): first awaits a local
microphone capture; on success stores the stream, emits `start-call` and
activates the session; on `getUserMedia` rejection sets the
capture-specific status and stops (no emit, no activation, no retry). -/
def startAudioCallP1 (s : AppState) (cap : Except CaptureErr Nat) :
    AppState × List Action :=
  let s1 := { s with callStatus := "Initiating audio call via socket..." }
  match cap with
  | .ok streamId =>
    ({ s1 with localStream := some streamId,
               isCallActive := true, isVideoCall := false },
     [Action.getUserMediaAudio, Action.emitStartCall "dashcam-001"])
  | .error e =>
    ({ s1 with callStatus :=
        "Microphone error: " ++ e.name ++ " - " ++ e.message },
     [Action.getUserMediaAudio])

/-- `startVideoCall` (`src/unnamed/part_001` 61-66). -/
def startVideoCallP1 (s : AppState) : AppState × List Action :=
  ({ s with callStatus := "Initiating video call via socket...",
            isCallActive := true, isVideoCall := true },
   [Action.emitStartVideoCall "dashcam-001"])

/-- A click on the Start-Audio-Call button (`src/src/App.tsx` 400-414):
the button carries `disabled = isCallActive`, so the click reaches
`startAudioCall` only when no session is active. -/
def clickStartAudioCall (s : AppState) : AppState × List Action :=
  if s.isCallActive then (s, []) else startAudioCall s

/-- A click on the Start-Video-Call button (`src/src/App.tsx` 416-430). -/
def clickStartVideoCall (s : AppState) : AppState × List Action :=
  if s.isCallActive then (s, []) else startVideoCall s

/-- A click on the Start-Audio-Call button of the codec variant
(`src/unnamed/part_001` 494-508), with the capture outcome of the
`getUserMedia` the enabled path would await. -/
def clickStartAudioCallP1 (s : AppState) (cap : Except CaptureErr Nat) :
    AppState × List Action :=
  if s.isCallActive then (s, []) else startAudioCallP1 s cap

/-- A click on the Start-Video-Call button of the codec variant
(`src/unnamed/part_001` 510-524). -/
def clickStartVideoCallP1 (s : AppState) : AppState × List Action :=
  if s.isCallActive then (s, []) else startVideoCallP1 s

/-- `endCall` (`src/src/App.tsx` 29-61 = `src/unnamed/part_001` 68-100):
if a connection exists, emit the end notification (addressed to the
stored socket id only when a remote description with a truthy `type` is
present, else to `""`), close and drop the connection; detach both
sinks (guarded by element presence); stop and drop the local capture;
reset the status, flags, audio level and video stats; schedule the
status debounce back to the ready message. -/
def endCall (s : AppState) : AppState × List Action :=
  let emits : List Action :=
    match s.pc with
    | some pc =>
      let remoteSocketId :=
        match pc.remoteDescription with
        | some d => if d.descType ≠ "" then s.dashcamSocketId.getD "" else ""
        | none => ""
      [(if s.isVideoCall then Action.emitEndVideoCall remoteSocketId
        else Action.emitEndCall remoteSocketId),
       Action.closePC pc.id]
    | none => []
  let stops : List Action :=
    match s.localStream with
    | some streamId => [Action.stopTracks streamId]
    | none => []
  ({ s with pc := none,
            audioSink := if s.audioRefPresent then none else s.audioSink,
            videoSink := if s.videoRefPresent then none else s.videoSink,
            localStream := none,
            callStatus := "Call ended",
            isCallActive := false, isVideoCall := false,
            audioLevel := 0, videoStats := "",
            pendingStatusReset := true },
   emits ++ stops ++ [Action.scheduleStatusReset])

/-- The scheduled `setTimeout(() => setCallStatus("Ready to call"), 2000)`
firing. -/
def fireStatusReset (s : AppState) : AppState :=
  if s.pendingStatusReset then
    { s with callStatus := "Ready to call", pendingStatusReset := false }
  else s

/-- A state's sink bindings are meaningful only while the media element is
mounted: an unmounted element holds no attached track. -/
def SinksWF (s : AppState) : Prop :=
  (s.audioRefPresent = false → s.audioSink = none) ∧
  (s.videoRefPresent = false → s.videoSink = none)

instance (s : AppState) : Decidable (SinksWF s) := by
  unfold SinksWF
  infer_instance

/-! ## Negotiator handlers -/

/-- `pc.onconnectionstatechange` (`src/unnamed/part_001` 256-267, audio
channel): `connected` sets the connected status; `failed` sets the
failure status, clears the active flag and emits `call-ended` to the
peer the closure captured; every other state sets a connecting status.
Nothing is closed, stopped or detached here. -/
def onConnectionStateChangeP1 (s : AppState) (c : ConnState) (fromId : String) :
    AppState × List Action :=
  if c = .connected then
    ({ s with callStatus := "Audio connected" }, [])
  else if c = .failed then
    ({ s with callStatus := "Audio connection failed", isCallActive := false },
     [Action.emitCallEnded fromId])
  else
    ({ s with callStatus := "Audio connecting... (" ++ connStateName c ++ ")" }, [])

/-- `pc.onconnectionstatechange` (`src/src/App.tsx` 191-201, audio
channel): as above but with no relay emission at all on `failed`. -/
def appOnConnectionStateChange (s : AppState) (c : ConnState) :
    AppState × List Action :=
  if c = .connected then
    ({ s with callStatus := "Audio connected" }, [])
  else if c = .failed then
    ({ s with callStatus := "Audio connection failed", isCallActive := false }, [])
  else
    ({ s with callStatus := "Audio connecting... (" ++ connStateName c ++ ")" }, [])

/-- The candidate branch of the `webrtc-signal` handler
(`src/unnamed/part_001` 281-290): decode via `parseIceCandidate`; hand
the result to the transport engine only when decode succeeded, a
connection exists and its remote description is set; otherwise log and
drop, leaving the state untouched. -/
def candidateBranchP1 (s : AppState) (raw : RawCandidate) :
    AppState × List Action :=
  match parseIceCandidate raw with
  | some c =>
    match s.pc with
    | some pc =>
      if pc.remoteDescription.isSome then (s, [Action.addIceCandidate c])
      else (s, [])
    | none => (s, [])
  | none => (s, [])

/-- The candidate branch of the `webrtc-signal` handler
(`src/src/App.tsx` 214-221): no codec; the structured candidate is
applied only when a connection with a remote description exists, its
`candidate` string is truthy (non-empty) and `sdpMid` / `sdpMLineIndex`
are defined; otherwise log and drop. -/
def appCandidateBranch (s : AppState) (c : IceCandidateInit) :
    AppState × List Action :=
  match s.pc with
  | some pc =>
    if pc.remoteDescription.isSome && c.candidate ≠ "" &&
        c.sdpMid.isSome && c.sdpMLineIndex.isSome then
      (s, [Action.addIceCandidate c])
    else (s, [])
  | none => (s, [])

/-- The `ready` branch of the `webrtc-signal` handler
(`src/unnamed/part_001` 185-273): set the status, store the peer's
socket id, create a fresh connection and overwrite `pcRef` with it
(without closing any previous connection), then await `getUserMedia`.
On capture success: store the stream (overwriting any previous one
without stopping its tracks), add its tracks, create/apply/send the
offer.  On capture failure the surrounding `catch` sets the generic
connection-error status; the already-assigned fresh connection stays,
`isCallActive` is untouched, and nothing is retried.
`freshPcId` names the new `RTCPeerConnection`; `cap` is the capture
outcome carrying the new stream id. -/
def readyBranchP1 (s : AppState) (fromId : String) (freshPcId : Nat)
    (cap : Except CaptureErr Nat) : AppState × List Action :=
  let s1 := { s with
    callStatus := "Dashcam ready - Creating audio offer...",
    dashcamSocketId := some fromId,
    pc := some { id := freshPcId, connectionState := .fresh,
                 remoteDescription := none } }
  match cap with
  | .error e =>
    ({ s1 with callStatus := "Audio connection error: " ++ e.message },
     [Action.getUserMediaAudio])
  | .ok streamId =>
    ({ s1 with localStream := some streamId,
               callStatus := "Audio offer sent..." },
     [Action.getUserMediaAudio, Action.addTrackToPC freshPcId,
      Action.createOffer, Action.setLocalDescription,
      Action.emitSignalOffer fromId])

/-- The `ready` branch of the `webrtc-signal` handler
(`src/src/App.tsx` 143-206): identical flow; its `catch` message is the
bare generic status with no error detail. -/
def appReadyBranch (s : AppState) (fromId : String) (freshPcId : Nat)
    (cap : Except CaptureErr Nat) : AppState × List Action :=
  let s1 := { s with
    callStatus := "Dashcam ready - Creating audio offer...",
    dashcamSocketId := some fromId,
    pc := some { id := freshPcId, connectionState := .fresh,
                 remoteDescription := none } }
  match cap with
  | .error _ =>
    ({ s1 with callStatus := "Audio connection error" },
     [Action.getUserMediaAudio])
  | .ok streamId =>
    ({ s1 with localStream := some streamId,
               callStatus := "Audio offer sent..." },
     [Action.getUserMediaAudio, Action.addTrackToPC freshPcId,
      Action.createOffer, Action.setLocalDescription,
      Action.emitSignalOffer fromId])

/-! ## Media Session: inbound track routing -/

/-- `handleTrackReceived` (`src/unnamed/part_001` 124-168): a video track
is attached to the video sink only when the video element is mounted
AND `isVideoCall` holds; an audio track is attached to the audio sink
whenever the audio element is mounted.  Attaching requests playback. -/
def handleTrackReceivedP1 (s : AppState) (t : Track) : AppState × List Action :=
  let videoHit := t.kind = .video && s.videoRefPresent && s.isVideoCall
  let audioHit := t.kind = .audio && s.audioRefPresent
  let s1 := if videoHit then { s with videoSink := some t } else s
  let s2 := if audioHit then { s1 with audioSink := some t } else s1
  (s2, (if videoHit then [Action.playVideo] else []) ++
       (if audioHit then [Action.playAudio] else []))

/-- `handleTrackReceived` (`src/src/App.tsx` 85-127): no `isVideoCall`
check; a video track is attached whenever the video element is mounted.
The video element is rendered only under `isCallActive && isVideoCall`
(`src/src/App.tsx` 448-473), so in an audio-only session
`videoRefPresent` is false. -/
def appHandleTrackReceived (s : AppState) (t : Track) : AppState × List Action :=
  let videoHit := t.kind = .video && s.videoRefPresent
  let audioHit := t.kind = .audio && s.audioRefPresent
  let s1 := if videoHit then { s with videoSink := some t } else s
  let s2 := if audioHit then { s1 with audioSink := some t } else s1
  (s2, (if videoHit then [Action.playVideo] else []) ++
       (if audioHit then [Action.playAudio] else []))

/-! ## Audio-level sampling loop

`setupAudioLevelMonitoring` / `updateLevel`
(`src/unnamed/part_001` 102-122 = `src/src/App.tsx` 63-83):
`updateLevel` re-checks `pcRef.current?.connectionState === "connected"`
before doing anything; only on success does it sample once and schedule
itself again via `requestAnimationFrame`.  We model the run as a
sequence of animation frames, each carrying the connection state
observed when the callback fires; the boolean output records whether a
sample was produced in that frame. -/

/-- One `updateLevel` invocation: given whether a callback is pending and
the current connection state, report (sampled?, still scheduled?). -/
def updateLevelStep (pending : Bool) (c : ConnState) : Bool × Bool :=
  if pending then
    (if c = .connected then (true, true) else (false, false))
  else (false, false)

/-- Run the sampling loop over a frame sequence from a given pending
flag. -/
def sampleLoopAux : Bool → List ConnState → List Bool
  | _, [] => []
  | p, c :: rest =>
    let r := updateLevelStep p c
    r.1 :: sampleLoopAux r.2 rest

/-- The loop as started by `setupAudioLevelMonitoring` (which invokes
`updateLevel` immediately, hence an initially pending callback). -/
def sampleLoop (frames : List ConnState) : List Bool :=
  sampleLoopAux true frames

/-- The level computed by one sample: `Math.round(average / 255 * 100)`
with `average` the mean of the 128 frequency-bin bytes. -/
def sampleLevel (dataArray : List Nat) : Int :=
  round ((((dataArray.sum : ℚ) / 128) / 255) * 100)

/-! ## The spec's fixed candidate grammar, stated declaratively

`candidate:<foundation> <component> <protocol> <priority> <ip> <port>
typ <type><rest>` — a legacy string matches when it contains a substring
of this shape (the implementation's `String.prototype.match` is an
unanchored search and `<rest>` absorbs whatever follows the type). -/

/-- Regex `\S+`: a nonempty run of non-whitespace characters. -/
def NonSpaceRun (l : List Char) : Prop :=
  l ≠ [] ∧ ∀ c ∈ l, jsIsSpace c = false

/-- Regex `\d+`. -/
def DigitRun (l : List Char) : Prop :=
  l ≠ [] ∧ ∀ c ∈ l, jsIsDigit c = true

/-- Regex `\w+`. -/
def WordRun (l : List Char) : Prop :=
  l ≠ [] ∧ ∀ c ∈ l, jsIsWord c = true

/-- The fixed grammar, anchored at the start of `l`. -/
def LegacyGrammarAt (l : List Char) : Prop :=
  ∃ f comp proto prio ip port ty tail,
    l = "candidate:".toList ++ f ++ [' '] ++ comp ++ [' '] ++ proto ++ [' '] ++
        prio ++ [' '] ++ ip ++ [' '] ++ port ++ " typ ".toList ++ ty ++ tail ∧
    NonSpaceRun f ∧ DigitRun comp ∧ WordRun proto ∧ DigitRun prio ∧
    NonSpaceRun ip ∧ DigitRun port ∧ WordRun ty

/-- A legacy candidate string matches the fixed grammar (at some
position, per JavaScript match semantics). -/
def LegacyMatches (s : String) : Prop :=
  ∃ pre suff, s.toList = pre ++ suff ∧ LegacyGrammarAt suff

/-! ## Helper lemmas about the codec -/

theorem litChar_eq_some {c : Char} {l r : List Char}
    (h : litChar c l = some r) : l = c :: r := by
  cases l with
  | nil => simp [litChar] at h
  | cons x rest =>
    simp only [litChar] at h
    split at h <;> simp_all

theorem lit_eq_some {pat l r : List Char} (h : lit pat l = some r) :
    l = pat ++ r := by
  induction pat generalizing l with
  | nil =>
    simp only [lit, Option.some.injEq] at h
    simp [h]
  | cons c cs ih =>
    simp only [lit] at h
    cases hl : litChar c l with
    | none => rw [hl] at h; simp at h
    | some l2 =>
      rw [hl] at h
      simp only [Option.some_bind] at h
      have := litChar_eq_some hl
      subst this
      simp [ih h]

theorem run1_eq_some {p : Char → Bool} {l a b : List Char}
    (h : run1 p l = some (a, b)) :
    l = a ++ b ∧ a ≠ [] ∧ ∀ c ∈ a, p c = true := by
  unfold run1 takeRun at h
  split at h
  case h_1 heq =>
    simp at h
  case h_2 c a2 b2 heq =>
    simp only [Option.some.injEq, Prod.mk.injEq] at h
    obtain ⟨ha, hb⟩ := h
    have hsplit : l.takeWhile p ++ l.dropWhile p = l :=
      List.takeWhile_append_dropWhile p l
    have htake : l.takeWhile p = c :: a2 := (Prod.mk.injEq _ _ _ _ ▸ heq).1
    have hdrop : l.dropWhile p = b2 := (Prod.mk.injEq _ _ _ _ ▸ heq).2
    refine ⟨?_, ?_, ?_⟩
    · rw [← ha, ← hb, ← htake, ← hdrop, hsplit]
    · rw [← ha]; simp
    · intro x hx
      apply List.mem_takeWhile_imp
      rw [htake, ha]
      exact hx

set_option maxHeartbeats 1000000 in
/-- A successful regex attempt at the start of `l` exhibits the grammar
decomposition of `l`. -/
theorem matchCandidateAt_sound {l : List Char} {g : LegacyGroups}
    (h : matchCandidateAt l = some g) : LegacyGrammarAt l := by
  unfold matchCandidateAt at h
  simp only [bind, Option.bind_eq_some, pure] at h
  obtain ⟨l1, h1, ⟨f, l2⟩, h2, l3, h3, ⟨comp, l4⟩, h4, l5, h5, ⟨proto, l6⟩, h6,
    l7, h7, ⟨prio, l8⟩, h8, l9, h9, ⟨ip, l10⟩, h10, l11, h11, ⟨port, l12⟩, h12,
    l13, h13, ⟨ty, l14⟩, h14, _⟩ := h
  simp only at h3 h5 h7 h9 h11 h13
  have e1 := lit_eq_some h1
  obtain ⟨e2, hfne, hf⟩ := run1_eq_some h2
  have e3 := litChar_eq_some h3
  obtain ⟨e4, hcompne, hcomp⟩ := run1_eq_some h4
  have e5 := litChar_eq_some h5
  obtain ⟨e6, hprotone, hproto⟩ := run1_eq_some h6
  have e7 := litChar_eq_some h7
  obtain ⟨e8, hprione, hprio⟩ := run1_eq_some h8
  have e9 := litChar_eq_some h9
  obtain ⟨e10, hipne, hip⟩ := run1_eq_some h10
  have e11 := litChar_eq_some h11
  obtain ⟨e12, hportne, hport⟩ := run1_eq_some h12
  have e13 := lit_eq_some h13
  obtain ⟨e14, htyne, hty⟩ := run1_eq_some h14
  refine ⟨f, comp, proto, prio, ip, port, ty, l14, ?_,
    ⟨hfne, fun c hc => by simpa using hf c hc⟩, ⟨hcompne, hcomp⟩,
    ⟨hprotone, hproto⟩, ⟨hprione, hprio⟩,
    ⟨hipne, fun c hc => by simpa using hip c hc⟩, ⟨hportne, hport⟩,
    ⟨htyne, hty⟩⟩
  subst e1 e2 e3 e4 e5 e6 e7 e8 e9 e10 e11 e12 e13 e14
  simp

/-- A successful unanchored search exhibits a start position at which the
attempt succeeded. -/
theorem findCandidateMatch_sound {l : List Char} {g : LegacyGroups}
    (h : findCandidateMatch l = some g) :
    ∃ pre suff, l = pre ++ suff ∧ matchCandidateAt suff = some g := by
  induction l with
  | nil => simp [findCandidateMatch] at h
  | cons c rest ih =>
    rw [findCandidateMatch] at h
    split at h
    case h_1 g2 heq =>
      obtain rfl : g2 = g := by injection h
      exact ⟨[], c :: rest, rfl, heq⟩
    case h_2 heq =>
      obtain ⟨pre, suff, hps, hm⟩ := ih h
      exact ⟨c :: pre, suff, by simp [hps], hm⟩

/-- Whenever the decoder accepts a legacy string, the string matches the
spec's fixed grammar. -/
theorem parse_str_some_matches {s : String} {c : IceCandidateInit}
    (h : parseIceCandidate (.str s) = some c) : LegacyMatches s := by
  cases hm : findCandidateMatch s.toList with
  | none =>
    have hm2 : findCandidateMatch s.data = none := hm
    simp [parseIceCandidate, hm2] at h
  | some g =>
    obtain ⟨pre, suff, hps, hmat⟩ := findCandidateMatch_sound hm
    exact ⟨pre, suff, hps, matchCandidateAt_sound hmat⟩

/-- `updateLevel` samples and reschedules exactly when a callback was
pending and the connection state is `connected`. -/
theorem updateLevelStep_eq (p : Bool) (c : ConnState) :
    updateLevelStep p c =
      (p && decide (c = .connected), p && decide (c = .connected)) := by
  unfold updateLevelStep
  by_cases hp : p <;> by_cases hc : c = .connected <;> simp [hp, hc]

/-- A sample in frame `j` requires a pending callback at the start and
`connected` in frame `j` and every earlier frame. -/
theorem sampleLoopAux_true {frames : List ConnState} :
    ∀ {p : Bool} {j : Nat}, (sampleLoopAux p frames).getD j false = true →
      p = true ∧ frames.getD j .closed = .connected ∧
      ∀ i, i < j → frames.getD i .closed = .connected := by
  induction frames with
  | nil =>
    intro p j h
    simp [sampleLoopAux, List.getD] at h
  | cons c rest ih =>
    intro p j h
    rw [sampleLoopAux, updateLevelStep_eq] at h
    cases j with
    | zero =>
      simp only [List.getD_cons_zero] at h
      simp only [Bool.and_eq_true, decide_eq_true_eq] at h
      exact ⟨h.1, by simpa using h.2, fun i hi => absurd hi (by omega)⟩
    | succ j =>
      simp only [List.getD_cons_succ] at h
      obtain ⟨hp, hj, hall⟩ := ih h
      simp only [Bool.and_eq_true, decide_eq_true_eq] at hp
      refine ⟨hp.1, by simpa using hj, fun i hi => ?_⟩
      cases i with
      | zero => simpa using hp.2
      | succ i => simpa using hall i (by omega)

/-! ## Concrete states used by witnesses and counterexamples -/

/-- The component's initial state: the `useState` initializers, null refs
and empty session storage; the always-rendered audio element is mounted,
the conditionally-rendered video element is not. -/
def initialState : AppState :=
  { pc := none, localStream := none, audioSink := none, videoSink := none,
    audioRefPresent := true, videoRefPresent := false,
    callStatus := "Ready to call", audioLevel := 0,
    isCallActive := false, isVideoCall := false, videoStats := "",
    dashcamSocketId := none, pendingStatusReset := false }

/-- A state with an active, fully negotiated video call. -/
def activeVideoState : AppState :=
  { initialState with
    isCallActive := true, isVideoCall := true, videoRefPresent := true,
    callStatus := "Video connected",
    pc := some { id := 1, connectionState := .connected,
                 remoteDescription := some { descType := "answer" } },
    dashcamSocketId := some "peer1" }

/-- A state with an active, fully negotiated audio call: connection with
applied answer, live local capture, attached audio sink. -/
def midCallState : AppState :=
  { initialState with
    isCallActive := true, callStatus := "Audio connected",
    pc := some { id := 1, connectionState := .connected,
                 remoteDescription := some { descType := "answer" } },
    localStream := some 5,
    audioSink := some { kind := .audio, streamId := 9 },
    dashcamSocketId := some "peer1" }

/-- A state mid-negotiation: a connection exists but no remote
description has been applied yet. -/
def preAnswerState : AppState :=
  { initialState with
    isCallActive := true, callStatus := "Audio offer sent...",
    pc := some { id := 1, connectionState := .connecting,
                 remoteDescription := none },
    localStream := some 5,
    dashcamSocketId := some "peer1" }

/-- The state right after the plain `startAudioCall` emitted its intent:
the session is flagged active while negotiation has not begun. -/
def activeAudioStartState : AppState :=
  { initialState with
    isCallActive := true,
    callStatus := "Initiating audio call via socket..." }

/-- A structured candidate whose candidate-string field is empty. -/
def emptyCandidate : IceCandidateInit :=
  { candidate := "", sdpMid := some "0", sdpMLineIndex := some 0,
    usernameFragment := none }

/-! ## Claims -/

/-- C4: for every candidate message whose payload decodes successfully
(either wire form), arriving while no remote description has been
applied (including while no connection exists at all), both variants of
the handler's candidate branch drop it: the candidate is not handed to
the transport engine, nothing is buffered, the state is returned
untouched, and no error is raised (the branch is a total function). -/
theorem early_candidate_dropped (s : AppState) (raw : RawCandidate)
    (c : IceCandidateInit) (c2 : IceCandidateInit)
    (hwf : parseIceCandidate raw = some c)
    (hpre : ∀ pc, s.pc = some pc → pc.remoteDescription = none) :
    candidateBranchP1 s raw = (s, []) ∧ appCandidateBranch s c2 = (s, []) := by
  constructor
  · unfold candidateBranchP1
    rw [hwf]
    cases hpc : s.pc with
    | none => rfl
    | some pc => simp [hpre pc hpc]
  · unfold appCandidateBranch
    cases hpc : s.pc with
    | none => rfl
    | some pc => simp [hpre pc hpc]

/-- C4 witness: a well-formed structured candidate arriving in a state
where the connection has no remote description yet is dropped. -/
theorem early_candidate_dropped_witness :
    (parseIceCandidate (.structured emptyCandidate) = some emptyCandidate ∧
     ∀ pc, preAnswerState.pc = some pc → pc.remoteDescription = none) ∧
    candidateBranchP1 preAnswerState (.structured emptyCandidate) =
      (preAnswerState, []) ∧
    appCandidateBranch preAnswerState emptyCandidate = (preAnswerState, []) :=
  ⟨⟨rfl, by decide⟩,
   early_candidate_dropped preAnswerState (.structured emptyCandidate)
     emptyCandidate emptyCandidate rfl (by decide)⟩

/-- C5: for every malformed legacy-string candidate — one in which the
fixed grammar `candidate:<foundation> <component> <protocol> <priority>
<ip> <port> typ <type><rest>` matches at no position — `parseIceCandidate`
returns the `null` discard signal (and, being a total function, cannot
throw), and the handler's candidate branch leaves the state unchanged
and issues no engine command. -/
theorem malformed_legacy_candidate_discarded (s : String) (st : AppState)
    (h : ¬ LegacyMatches s) :
    parseIceCandidate (.str s) = none ∧
    candidateBranchP1 st (.str s) = (st, []) := by
  have hp : parseIceCandidate (.str s) = none := by
    cases hc : parseIceCandidate (.str s) with
    | none => rfl
    | some c => exact absurd (parse_str_some_matches hc) h
  refine ⟨hp, ?_⟩
  unfold candidateBranchP1
  rw [hp]

/-- C5 witness: the grammar matches nowhere in the five-character string
"hello" (any match needs at least the ten characters of the literal
"candidate:"), and the decoder discards it. -/
theorem malformed_legacy_candidate_discarded_witness :
    ¬ LegacyMatches "hello" ∧
    parseIceCandidate (.str "hello") = none ∧
    candidateBranchP1 initialState (.str "hello") = (initialState, []) := by
  have h : ¬ LegacyMatches "hello" := by
    rintro ⟨pre, suff, heq, f, comp, proto, prio, ip, port, ty, tail, hsuff,
      -, -, -, -, -, -, -⟩
    have h5 : ("hello".toList).length = 5 := by decide
    have h10 : ("candidate:".toList).length = 10 := by decide
    have hlen := congrArg List.length heq
    have hlen2 := congrArg List.length hsuff
    simp only [List.length_append] at hlen hlen2
    omega
  exact ⟨h, malformed_legacy_candidate_discarded "hello" initialState h⟩

/-- C6 counterexample: `parseIceCandidate` passes a structured candidate
with an EMPTY candidate-string field through unvalidated, and the codec
variant's handler hands it to the transport engine once a remote
description is present — the claimed non-empty validation does not
happen in the decode path. -/
theorem structured_candidate_validation_counterexample :
    emptyCandidate.candidate = "" ∧
    parseIceCandidate (.structured emptyCandidate) = some emptyCandidate ∧
    candidateBranchP1 midCallState (.structured emptyCandidate) =
      (midCallState, [Action.addIceCandidate emptyCandidate]) := by
  refine ⟨rfl, rfl, ?_⟩
  decide

/-- C6 amended: decode passes every structured candidate through
unchanged, with no validation of its own; the non-empty candidate-string
check exists only in the `App.tsx` variant, whose handler rejects an
empty candidate string instead of passing it to the transport engine. -/
theorem structured_candidate_passthrough (c : IceCandidateInit)
    (s : AppState) (hempty : c.candidate = "") :
    parseIceCandidate (.structured c) = some c ∧
    appCandidateBranch s c = (s, []) := by
  refine ⟨rfl, ?_⟩
  unfold appCandidateBranch
  cases s.pc with
  | none => rfl
  | some pc => simp [hempty]

/-- C6 amended witness. -/
theorem structured_candidate_passthrough_witness :
    emptyCandidate.candidate = "" ∧
    parseIceCandidate (.structured emptyCandidate) = some emptyCandidate ∧
    appCandidateBranch midCallState emptyCandidate = (midCallState, []) :=
  ⟨rfl,
   structured_candidate_passthrough emptyCandidate midCallState rfl⟩

/-- C1 counterexample: in a state with an active video session, invoking
`startAudioCall()` directly is NOT a no-op — it emits a `start-call`
relay message and overwrites the session's mode flag and status; the
function body contains no active-session check. -/
theorem start_call_noop_counterexample :
    activeVideoState.isCallActive = true ∧
    (startAudioCall activeVideoState).2 =
      [Action.emitStartCall "dashcam-002"] ∧
    (startAudioCall activeVideoState).1.isVideoCall ≠
      activeVideoState.isVideoCall ∧
    (startAudioCall activeVideoState).1.callStatus ≠
      activeVideoState.callStatus := by
  refine ⟨rfl, rfl, ?_, ?_⟩ <;> decide

/-- C1 amended: the single-session rejection is enforced at the UI layer,
not inside the start functions: both start buttons carry
`disabled = isCallActive`, so while a session is active a click on
either button (in either variant) reaches no handler and changes
nothing; the functions themselves, invoked directly, unconditionally
emit a start message. -/
theorem start_buttons_disabled_when_active (s : AppState)
    (cap : Except CaptureErr Nat) (h : s.isCallActive = true) :
    clickStartAudioCall s = (s, []) ∧
    clickStartVideoCall s = (s, []) ∧
    clickStartAudioCallP1 s cap = (s, []) ∧
    clickStartVideoCallP1 s = (s, []) ∧
    (startAudioCall s).2 = [Action.emitStartCall "dashcam-002"] ∧
    (startVideoCall s).2 = [Action.emitStartVideoCall "dashcam-002"] := by
  simp [clickStartAudioCall, clickStartVideoCall, clickStartAudioCallP1,
    clickStartVideoCallP1, startAudioCall, startVideoCall, h]

/-- C1 amended witness. -/
theorem start_buttons_disabled_when_active_witness :
    activeVideoState.isCallActive = true ∧
    (clickStartAudioCall activeVideoState = (activeVideoState, []) ∧
     clickStartVideoCall activeVideoState = (activeVideoState, []) ∧
     clickStartAudioCallP1 activeVideoState (.ok 7) = (activeVideoState, []) ∧
     clickStartVideoCallP1 activeVideoState = (activeVideoState, []) ∧
     (startAudioCall activeVideoState).2 =
       [Action.emitStartCall "dashcam-002"] ∧
     (startVideoCall activeVideoState).2 =
       [Action.emitStartVideoCall "dashcam-002"]) :=
  ⟨rfl, start_buttons_disabled_when_active activeVideoState (.ok 7) rfl⟩

/-- C2 counterexample: in a mid-call state, the `failed` branch of the
connection-state handler performs none of the `endCall()`-equivalent
cleanup — the connection reference survives unclosed, the local capture
keeps its tracks, the audio sink stays attached — and a second `failed`
report emits the end notification again (it is sent per report, not
exactly once). -/
theorem transport_failed_cleanup_counterexample :
    (onConnectionStateChangeP1 midCallState .failed "peer1").1.pc =
      midCallState.pc ∧
    midCallState.pc ≠ none ∧
    (onConnectionStateChangeP1 midCallState .failed "peer1").1.localStream =
      some 5 ∧
    (onConnectionStateChangeP1 midCallState .failed "peer1").1.audioSink =
      some { kind := .audio, streamId := 9 } ∧
    (onConnectionStateChangeP1 midCallState .failed "peer1").2 =
      [Action.emitCallEnded "peer1"] ∧
    (onConnectionStateChangeP1
        (onConnectionStateChangeP1 midCallState .failed "peer1").1
        .failed "peer1").2 =
      [Action.emitCallEnded "peer1"] := by
  decide

/-- C2 amended: when the transport engine reports `failed`, the handler
only sets the failure status and clears the active flag; the codec
variant additionally emits a `call-ended` notification to the peer on
EVERY `failed` report (not exactly once), while the `App.tsx` variant
emits nothing; neither variant closes the connection, stops local
capture tracks, detaches sinks or resets the remaining session state. -/
theorem transport_failed_handler_behavior (s : AppState) (fromId : String) :
    onConnectionStateChangeP1 s .failed fromId =
      ({ s with callStatus := "Audio connection failed",
                isCallActive := false },
       [Action.emitCallEnded fromId]) ∧
    appOnConnectionStateChange s .failed =
      ({ s with callStatus := "Audio connection failed",
                isCallActive := false }, []) := by
  constructor <;> rfl

/-- C3: `endCall()` is idempotent and total: a second call in a row
changes nothing further and performs only the status-debounce
scheduling (in particular it emits nothing to the relay, which also
covers calling it when no session exists, since the first call leaves
no session); once the scheduled debounce fires, the state is the idle
baseline — ready status, zero audio level, no connection, no local
capture, nothing attached to either sink. -/
theorem endCall_idempotent_idle_baseline (s : AppState) (h : SinksWF s) :
    (endCall (endCall s).1).1 = (endCall s).1 ∧
    (endCall (endCall s).1).2 = [Action.scheduleStatusReset] ∧
    (fireStatusReset (endCall s).1).callStatus = "Ready to call" ∧
    (fireStatusReset (endCall s).1).audioLevel = 0 ∧
    (fireStatusReset (endCall s).1).pc = none ∧
    (fireStatusReset (endCall s).1).localStream = none ∧
    (fireStatusReset (endCall s).1).audioSink = none ∧
    (fireStatusReset (endCall s).1).videoSink = none := by
  obtain ⟨ha, hv⟩ := h
  by_cases hA : s.audioRefPresent = true <;> by_cases hV : s.videoRefPresent = true <;>
    simp_all [endCall, fireStatusReset]

/-- C3 witness: ending the fully active call (and ending it again) lands
on the idle baseline. -/
theorem endCall_idempotent_idle_baseline_witness :
    SinksWF midCallState ∧
    ((endCall (endCall midCallState).1).1 = (endCall midCallState).1 ∧
     (endCall (endCall midCallState).1).2 = [Action.scheduleStatusReset] ∧
     (fireStatusReset (endCall midCallState).1).callStatus = "Ready to call" ∧
     (fireStatusReset (endCall midCallState).1).audioLevel = 0 ∧
     (fireStatusReset (endCall midCallState).1).pc = none ∧
     (fireStatusReset (endCall midCallState).1).localStream = none ∧
     (fireStatusReset (endCall midCallState).1).audioSink = none ∧
     (fireStatusReset (endCall midCallState).1).videoSink = none) :=
  ⟨by decide, endCall_idempotent_idle_baseline midCallState (by decide)⟩

/-- C7: inbound track routing. In the codec variant: an inbound audio
track is attached to the (mounted) audio sink without touching the
video sink; an inbound video track is attached to the video sink only
in a video session; in an audio-only session an inbound video track is
ignored outright — state and effects are exactly unchanged, whatever
the device sends.  In the `App.tsx` variant the same holds because the
video element is mounted only under `isCallActive && isVideoCall`, so
in an audio-only session there is no mounted video sink to attach to. -/
theorem inbound_track_routing (s : AppState) (t : Track) :
    (t.kind = .audio → s.audioRefPresent = true →
      (handleTrackReceivedP1 s t).1.audioSink = some t ∧
      (handleTrackReceivedP1 s t).1.videoSink = s.videoSink) ∧
    (t.kind = .video → s.isVideoCall = true → s.videoRefPresent = true →
      (handleTrackReceivedP1 s t).1.videoSink = some t ∧
      (handleTrackReceivedP1 s t).1.audioSink = s.audioSink) ∧
    (t.kind = .video → s.isVideoCall = false →
      handleTrackReceivedP1 s t = (s, [])) ∧
    (t.kind = .video → s.videoRefPresent = (s.isCallActive && s.isVideoCall) →
      s.isVideoCall = false → appHandleTrackReceived s t = (s, [])) := by
  obtain ⟨k, sid⟩ := t
  cases k <;>
    refine ⟨fun hk hA => ?_, fun hk hM hV => ?_, fun hk hM => ?_, fun hk hR hM => ?_⟩ <;>
    simp_all [handleTrackReceivedP1, appHandleTrackReceived]

/-- C7 witness: in an audio-only mid-call state an inbound audio track
lands on the audio sink and an inbound video track is ignored by both
variants; in a video session an inbound video track lands on the video
sink. -/
theorem inbound_track_routing_witness :
    ((handleTrackReceivedP1 midCallState { kind := .audio, streamId := 3 }).1.audioSink =
        some { kind := .audio, streamId := 3 } ∧
      (handleTrackReceivedP1 midCallState { kind := .audio, streamId := 3 }).1.videoSink =
        midCallState.videoSink) ∧
    handleTrackReceivedP1 midCallState { kind := .video, streamId := 3 } =
      (midCallState, []) ∧
    appHandleTrackReceived midCallState { kind := .video, streamId := 3 } =
      (midCallState, []) ∧
    (handleTrackReceivedP1 activeVideoState { kind := .video, streamId := 3 }).1.videoSink =
      some { kind := .video, streamId := 3 } :=
  ⟨(inbound_track_routing midCallState { kind := .audio, streamId := 3 }).1
      rfl rfl,
   (inbound_track_routing midCallState { kind := .video, streamId := 3 }).2.2.1
      rfl rfl,
   (inbound_track_routing midCallState { kind := .video, streamId := 3 }).2.2.2
      rfl (by decide) rfl,
   ((inbound_track_routing activeVideoState { kind := .video, streamId := 3 }).2.1
      rfl rfl rfl).1⟩

/-- C8: the sampling loop (`updateLevel` re-invoking itself through
`requestAnimationFrame`) produces a sample in frame `j` only if the
connection state is `connected` in frame `j` AND in every earlier
frame: the state check precedes the sample inside one atomic callback,
so no sample is ever produced while the state is not `connected`, and
once any frame observes a state other than `connected` the callback
returns without rescheduling, so ZERO further samples occur — which is
at most the one the claim allows. -/
theorem sampling_only_while_connected (frames : List ConnState) (j : Nat)
    (h : (sampleLoop frames).getD j false = true) :
    frames.getD j .closed = .connected ∧
    ∀ i, i < j → frames.getD i .closed = .connected :=
  (sampleLoopAux_true h).2

/-- C8 witness: over the frame states [connected, connected,
disconnected, connected], samples occur exactly in the first two frames
and never again, even though the state later returns to `connected`. -/
theorem sampling_only_while_connected_witness :
    sampleLoop [ConnState.connected, .connected, .disconnected, .connected] =
      [true, true, false, false] ∧
    (sampleLoop [ConnState.connected, .connected, .disconnected, .connected]).getD
      1 false = true ∧
    ([ConnState.connected, .connected, .disconnected, .connected].getD 1 .closed =
      .connected ∧
     ∀ i, i < 1 →
       [ConnState.connected, .connected, .disconnected, .connected].getD i .closed =
         .connected) :=
  ⟨by decide, by decide,
   sampling_only_while_connected
     [ConnState.connected, .connected, .disconnected, .connected] 1 (by decide)⟩

/-- C9 counterexample: a capture failure inside the `ready` branch (the
negotiation-time `getUserMedia`) is caught by the generic per-message
handler of both variants: the surfaced status is the generic
connection-error message, not a capture-specific one, and the session
stays flagged active — contradicting the claim that every capture
failure is surfaced specifically and deactivates the call attempt. -/
theorem capture_error_counterexample :
    (readyBranchP1 activeAudioStartState "peer1" 1
        (.error { name := "NotAllowedError", message := "Permission denied" })).1.isCallActive =
      true ∧
    (readyBranchP1 activeAudioStartState "peer1" 1
        (.error { name := "NotAllowedError", message := "Permission denied" })).1.callStatus =
      "Audio connection error: Permission denied" ∧
    (appReadyBranch activeAudioStartState "peer1" 1
        (.error { name := "NotAllowedError", message := "Permission denied" })).1.callStatus =
      "Audio connection error" := by
  decide

/-- C9 amended: a capture failure in the pre-call microphone check of the
codec variant's `startAudioCall` is terminal exactly as claimed — the
capture-specific `Microphone error` message is surfaced, the session is
not activated, nothing is emitted to the relay, and the single capture
attempt is not retried; a capture failure during the `ready` branch,
however, is caught by the generic handler: it surfaces the generic
connection-error status, leaves the active flag and the freshly
assigned connection in place, and is likewise not retried. -/
theorem capture_error_handling (s : AppState) (e : CaptureErr)
    (fromId : String) (pid : Nat) :
    startAudioCallP1 s (.error e) =
      ({ s with callStatus :=
          "Microphone error: " ++ e.name ++ " - " ++ e.message },
       [Action.getUserMediaAudio]) ∧
    readyBranchP1 s fromId pid (.error e) =
      ({ s with callStatus := "Audio connection error: " ++ e.message,
                dashcamSocketId := some fromId,
                pc := some { id := pid, connectionState := .fresh,
                             remoteDescription := none } },
       [Action.getUserMediaAudio]) ∧
    appReadyBranch s fromId pid (.error e) =
      ({ s with callStatus := "Audio connection error",
                dashcamSocketId := some fromId,
                pc := some { id := pid, connectionState := .fresh,
                             remoteDescription := none } },
       [Action.getUserMediaAudio]) := by
  refine ⟨rfl, rfl, rfl⟩

/-- C10: when a `ready` message is handled while a peer connection (and a
local capture) already exist, both variants assign a brand-new
connection over the stored reference and, on capture success, a new
stream over the stored capture, and the emitted effect sequence
contains no close of the old connection and no stop of the old
capture's tracks: the previous connection and tracks are abandoned, not
released. -/
theorem second_ready_abandons_connection (s : AppState) (oldPc : PeerConn)
    (oldStream : Nat) (fromId : String) (pid : Nat)
    (cap : Except CaptureErr Nat)
    (_hpc : s.pc = some oldPc) (_hstream : s.localStream = some oldStream) :
    (readyBranchP1 s fromId pid cap).1.pc =
      some { id := pid, connectionState := .fresh,
             remoteDescription := none } ∧
    Action.closePC oldPc.id ∉ (readyBranchP1 s fromId pid cap).2 ∧
    Action.stopTracks oldStream ∉ (readyBranchP1 s fromId pid cap).2 ∧
    (∀ st, cap = .ok st →
      (readyBranchP1 s fromId pid cap).1.localStream = some st) ∧
    (appReadyBranch s fromId pid cap).1.pc =
      some { id := pid, connectionState := .fresh,
             remoteDescription := none } ∧
    Action.closePC oldPc.id ∉ (appReadyBranch s fromId pid cap).2 ∧
    Action.stopTracks oldStream ∉ (appReadyBranch s fromId pid cap).2 := by
  cases cap <;> simp [readyBranchP1, appReadyBranch]

/-- C10 witness: a second `ready` in the fully active call state
abandons connection 1 and stream 5. -/
theorem second_ready_abandons_connection_witness :
    (midCallState.pc =
       some { id := 1, connectionState := .connected,
              remoteDescription := some { descType := "answer" } } ∧
     midCallState.localStream = some 5) ∧
    ((readyBranchP1 midCallState "peer1" 2 (.ok 6)).1.pc =
       some { id := 2, connectionState := .fresh,
              remoteDescription := none } ∧
     Action.closePC 1 ∉ (readyBranchP1 midCallState "peer1" 2 (.ok 6)).2 ∧
     Action.stopTracks 5 ∉ (readyBranchP1 midCallState "peer1" 2 (.ok 6)).2 ∧
     (∀ st, (Except.ok 6 : Except CaptureErr Nat) = .ok st →
       (readyBranchP1 midCallState "peer1" 2 (.ok 6)).1.localStream = some st) ∧
     (appReadyBranch midCallState "peer1" 2 (.ok 6)).1.pc =
       some { id := 2, connectionState := .fresh,
              remoteDescription := none } ∧
     Action.closePC 1 ∉ (appReadyBranch midCallState "peer1" 2 (.ok 6)).2 ∧
     Action.stopTracks 5 ∉ (appReadyBranch midCallState "peer1" 2 (.ok 6)).2) := by
  refine ⟨⟨rfl, rfl⟩, ?_⟩
  exact second_ready_abandons_connection midCallState
    { id := 1, connectionState := .connected,
      remoteDescription := some { descType := "answer" } } 5 "peer1" 2
    (.ok 6) rfl rfl

end Dashcam
